import Mathlib

/-!
Verification development for the `multi` package (multi-cluster mesh join tool).

The subject is the `join` subcommand's credential-exchange routine
(`GetJoinCommand`): for each ordered pair of configured clusters it reads the
pilot service account's secret from the source cluster, builds a kubeconfig-style
remote-access descriptor, and creates (or strategic-merge-patches) a labeled
secret on the destination cluster.

The embedding below is a direct translation of the Go source:
- the block guarded by `if false` (arity check, context-membership check, and the
  shell-based legacy path) is statically disabled in the source and therefore
  translates to a no-op;
- Go maps become association lists with `alookup`;
- the per-cluster Kubernetes API is modelled as explicit state
  (`ClusterState`), with create/patch faults injectable through the `World` to
  represent arbitrary API-server failures;
- `log.Fatal`/`log.Fatalf` and nil-map dereference panics become an `Abort`
  value (both terminate the process with a non-zero exit status);
- every API interaction is recorded in an operation trace (`Op`).
-/

namespace Multi

/-- Association-list lookup, modelling Go map indexing. -/
def alookup {α β : Type} [DecidableEq α] (k : α) : List (α × β) → Option β
  | [] => none
  | (k', v) :: rest => if k' = k then some v else alookup k rest

/-- An entry of the locally loaded kubeconfig's `Contexts` map
(`api.Context`): only the `Cluster` field is read by the join path. -/
structure KubeContext where
  cluster : String
  deriving DecidableEq, Repr

/-- An entry of the locally loaded kubeconfig's `Clusters` map
(`api.Cluster`): only the `Server` field is read by the join path. -/
structure KubeCluster where
  server : String
  deriving DecidableEq, Repr

/-- The locally loaded starting configuration
(`args.config.ConfigAccess().GetStartingConfig()`). -/
structure KubeConfig where
  contexts : List (String × KubeContext)
  clusters : List (String × KubeCluster)
  deriving DecidableEq, Repr

/-- `api.Cluster` as populated at lines 420-423 of the source. -/
structure ApiCluster where
  certificateAuthorityData : String
  server : String
  deriving DecidableEq, Repr

/-- `api.Context` as populated at lines 424-427 of the source. -/
structure ApiContext where
  cluster : String
  authInfo : String
  deriving DecidableEq, Repr

/-- `api.AuthInfo` as populated at lines 429-431 of the source. -/
structure ApiAuthInfo where
  token : String
  deriving DecidableEq, Repr

/-- The synthesized remote-access descriptor (`api.Config`), built at
lines 417-431 of the source. -/
structure ApiConfig where
  kind : String
  apiVersion : String
  clusters : List (String × ApiCluster)
  contexts : List (String × ApiContext)
  currentContext : String
  authInfos : List (String × ApiAuthInfo)
  deriving DecidableEq, Repr

/-- `sc := api.NewConfig(); sc.Kind = "Config"; ...` (source lines 417-431). -/
def mkDescriptor (clusterName server caData token : String) : ApiConfig :=
  { kind := "Config"
    apiVersion := "v1"
    clusters := [(clusterName, { certificateAuthorityData := caData, server := server })]
    contexts := [(clusterName, { cluster := clusterName, authInfo := clusterName })]
    currentContext := clusterName
    authInfos := [(clusterName, { token := token })] }

/-- A `v1.Secret`: object metadata (name, target namespace, labels) plus the
string-keyed data map. -/
structure SecretObj where
  name : String
  nspace : String
  labels : List (String × String)
  data : List (String × String)
  deriving DecidableEq, Repr

/-- A `v1.ObjectReference` as occurring in `ServiceAccount.Secrets`. -/
structure ObjectRef where
  name : String
  deriving DecidableEq, Repr

/-- A `v1.ServiceAccount`: only its list of referenced secrets is read. -/
structure ServiceAccount where
  secrets : List ObjectRef
  deriving DecidableEq, Repr

/-- The secret object built at source lines 433-441: only name, namespace and
the mesh-join label; the `Data` field is left at its zero value (empty). -/
def mkSrcSecret (src : String) : SecretObj :=
  { name := "istio-mc-" ++ src
    nspace := "istio-system"
    labels := [("istio/multiCluster", "true")]
    data := [] }

/-- The API-visible object state of one cluster, keyed by (namespace, name). -/
structure ClusterState where
  serviceAccounts : List ((String × String) × ServiceAccount)
  secrets : List ((String × String) × SecretObj)
  deriving DecidableEq, Repr

/-- The joint object state of all clusters, indexed by cluster context name. -/
def States := String → ClusterState

/-- Pointwise state replacement for one cluster. -/
def States.update (σ : States) (c : String) (st : ClusterState) : States :=
  fun x => if x = c then st else σ x

/-- Result of a Kubernetes API call, as distinguished by the source
(`errors.IsAlreadyExists` is the only classification made). -/
inductive ApiError
  | alreadyExists
  | notFound
  | other (msg : String)
  deriving DecidableEq, Repr

/-- One observable step of the join run. `createSecret`/`patchSecret` record
the call result so that claims about error handling can refer to it. -/
inductive Op
  | buildClient (cluster : String)
  | printJoin (src dst : String)
  | getServiceAccount (cluster ns name : String)
  | getSecret (cluster ns name : String)
  | buildDescriptor (d : ApiConfig)
  | createSecret (cluster ns : String) (s : SecretObj) (res : Option ApiError)
  | patchSecret (cluster ns name : String) (payload : SecretObj) (res : Option ApiError)
  deriving DecidableEq, Repr

/-- An abnormal process termination: `fatal` for `log.Fatal`/`log.Fatalf`
(exit status 1), `panicked` for a Go runtime panic (nil-map pointer
dereference, also a non-zero exit). -/
inductive Abort
  | fatal (msg : String)
  | panicked (msg : String)
  deriving DecidableEq, Repr

/-- Static run environment: the loaded kubeconfig, the outcome of building a
client for each context (`BuildClientConfig(...).ClientConfig()` composed with
`kubernetes.NewForConfig`), and injectable API-server faults for the
create/patch calls (cluster, secret name). `none` means the call follows the
normal backend semantics. -/
structure World where
  kubeconfig : KubeConfig
  clientErr : String → Option String
  createFault : String → String → Option ApiError
  patchFault : String → String → Option ApiError

/-- Backend semantics of `Secrets(ns).Create(s)`: an injected fault fails the
call; otherwise a name collision yields the already-exists error and a fresh
name inserts the object. -/
def doCreate (w : World) (cluster : String) (st : ClusterState) (ns : String)
    (s : SecretObj) : ClusterState × Option ApiError :=
  match w.createFault cluster s.name with
  | some e => (st, some e)
  | none =>
    match alookup (ns, s.name) st.secrets with
    | some _ => (st, some ApiError.alreadyExists)
    | none => ({ st with secrets := ((ns, s.name), s) :: st.secrets }, none)

/-- Key-wise strategic merge of a patch map into a base map: keys of the patch
override, remaining base keys persist. -/
def mergeKV (base patch : List (String × String)) : List (String × String) :=
  base.filter (fun kv => (alookup kv.1 patch).isNone) ++ patch

/-- Strategic merge-patch of a full secret payload into an existing secret. -/
def applyPatch (old p : SecretObj) : SecretObj :=
  { name := old.name
    nspace := old.nspace
    labels := mergeKV old.labels p.labels
    data := mergeKV old.data p.data }

/-- Backend semantics of `Secrets(ns).Patch(name, StrategicMergePatchType, p)`. -/
def doPatch (w : World) (cluster : String) (st : ClusterState) (ns name : String)
    (p : SecretObj) : ClusterState × Option ApiError :=
  match w.patchFault cluster name with
  | some e => (st, some e)
  | none =>
    match alookup (ns, name) st.secrets with
    | none => (st, some ApiError.notFound)
    | some old =>
      ({ st with
          secrets := st.secrets.map
            (fun kv => if kv.1 = (ns, name) then (kv.1, applyPatch old p) else kv) },
        none)

/-- Result of a (partial) run: the operation trace, the final cluster states,
and `some a` when the process terminated abnormally at that point. -/
structure StepRes where
  trace : List Op
  states : States
  abort : Option Abort

/-- The create call of one directed exchange:
`dstKube.CoreV1().Secrets(namespace).Create(srcSecret)` (source line 443). -/
def createRes (w : World) (src dst : String) (σ : States) : ClusterState × Option ApiError :=
  doCreate w dst (σ dst) "istio-system" (mkSrcSecret src)

/-- The fallback patch call of one directed exchange:
`dstKube.CoreV1().Secrets(namespace).Patch(srcSecret.Name, ..., patch)`
(source line 451), issued against the state left by the create attempt. -/
def patchRes (w : World) (src dst : String) (σ : States) : ClusterState × Option ApiError :=
  doPatch w dst (σ dst) "istio-system" (mkSrcSecret src).name (mkSrcSecret src)

/-- The body of the inner loop of `GetJoinCommand` for one directed pair
(source lines 367-454), executed after the `src == dst` skip:
print the join message; read `config.Contexts[dst].Cluster` and
`config.Clusters[clusterName].Server` (a Go nil-map pointer dereference panics
when the key is absent); build the source client (`log.Fatal` on error); get
the pilot service account (`log.Fatal` on error, and `log.Fatal(err)` with the
nil `err` when it does not reference exactly one secret); get the referenced
secret (`log.Fatal` on error, `log.Fatalf` naming the field when `ca.crt` or
`token` is absent); build the remote-access descriptor; build the labeled
secret and create it on the destination, falling back to a strategic
merge-patch when the create reports already-exists, with the patch error only
printed; any other create error is not examined and the loop body simply
ends. -/
def exchangePair (w : World) (config : KubeConfig) (src dst : String)
    (σ : States) : StepRes :=
  match alookup dst config.contexts with
  | none =>
    ⟨[Op.printJoin src dst], σ,
      some (Abort.panicked "invalid memory address or nil pointer dereference")⟩
  | some ctx =>
    match alookup ctx.cluster config.clusters with
    | none =>
      ⟨[Op.printJoin src dst], σ,
        some (Abort.panicked "invalid memory address or nil pointer dereference")⟩
    | some cl =>
      match w.clientErr src with
      | some e => ⟨[Op.printJoin src dst, Op.buildClient src], σ, some (Abort.fatal e)⟩
      | none =>
        match alookup ("istio-system", "istio-pilot-service-account")
            (σ src).serviceAccounts with
        | none =>
          ⟨[Op.printJoin src dst, Op.buildClient src,
              Op.getServiceAccount src "istio-system" "istio-pilot-service-account"], σ,
            some (Abort.fatal "serviceaccounts \"istio-pilot-service-account\" not found")⟩
        | some sa =>
          match sa.secrets with
          | [secretRef] =>
            match alookup ("istio-system", secretRef.name) (σ src).secrets with
            | none =>
              ⟨[Op.printJoin src dst, Op.buildClient src,
                  Op.getServiceAccount src "istio-system" "istio-pilot-service-account",
                  Op.getSecret src "istio-system" secretRef.name], σ,
                some (Abort.fatal ("secrets \"" ++ secretRef.name ++ "\" not found"))⟩
            | some pilotSecret =>
              match alookup "ca.crt" pilotSecret.data with
              | none =>
                ⟨[Op.printJoin src dst, Op.buildClient src,
                    Op.getServiceAccount src "istio-system" "istio-pilot-service-account",
                    Op.getSecret src "istio-system" secretRef.name], σ,
                  some (Abort.fatal (secretRef.name ++ " is missing ca.crt"))⟩
              | some caData =>
                match alookup "token" pilotSecret.data with
                | none =>
                  ⟨[Op.printJoin src dst, Op.buildClient src,
                      Op.getServiceAccount src "istio-system" "istio-pilot-service-account",
                      Op.getSecret src "istio-system" secretRef.name], σ,
                    some (Abort.fatal (secretRef.name ++ " is missing token"))⟩
                | some token =>
                  if (createRes w src dst σ).2 = some ApiError.alreadyExists then
                    -- json.Marshal of this value cannot fail; the patch error
                    -- is only printed, never fatal.
                    ⟨[Op.printJoin src dst, Op.buildClient src,
                        Op.getServiceAccount src "istio-system" "istio-pilot-service-account",
                        Op.getSecret src "istio-system" secretRef.name,
                        Op.buildDescriptor (mkDescriptor ctx.cluster cl.server caData token),
                        Op.createSecret dst "istio-system" (mkSrcSecret src)
                          (createRes w src dst σ).2,
                        Op.patchSecret dst "istio-system" (mkSrcSecret src).name
                          (mkSrcSecret src)
                          (patchRes w src dst (σ.update dst (createRes w src dst σ).1)).2],
                      (σ.update dst (createRes w src dst σ).1).update dst
                        (patchRes w src dst (σ.update dst (createRes w src dst σ).1)).1,
                      none⟩
                  else
                    ⟨[Op.printJoin src dst, Op.buildClient src,
                        Op.getServiceAccount src "istio-system" "istio-pilot-service-account",
                        Op.getSecret src "istio-system" secretRef.name,
                        Op.buildDescriptor (mkDescriptor ctx.cluster cl.server caData token),
                        Op.createSecret dst "istio-system" (mkSrcSecret src)
                          (createRes w src dst σ).2],
                      σ.update dst (createRes w src dst σ).1, none⟩
          | _ =>
            -- len(serviceAccount.Secrets) != 1: `log.Fatal(err)` with err == nil.
            ⟨[Op.printJoin src dst, Op.buildClient src,
                Op.getServiceAccount src "istio-system" "istio-pilot-service-account"], σ,
              some (Abort.fatal "<nil>")⟩

/-- The inner `for _, src := range args.clusters` loop for a fixed destination,
skipping `src == dst` (source lines 362-455). An abort stops the whole run. -/
def joinInner (w : World) (config : KubeConfig) (dst : String)
    (srcs : List String) (σ : States) : StepRes :=
  match srcs with
  | [] => ⟨[], σ, none⟩
  | src :: rest =>
    if src = dst then joinInner w config dst rest σ
    else
      match (exchangePair w config src dst σ).abort with
      | some a =>
        ⟨(exchangePair w config src dst σ).trace,
          (exchangePair w config src dst σ).states, some a⟩
      | none =>
        ⟨(exchangePair w config src dst σ).trace ++
            (joinInner w config dst rest (exchangePair w config src dst σ).states).trace,
          (joinInner w config dst rest (exchangePair w config src dst σ).states).states,
          (joinInner w config dst rest (exchangePair w config src dst σ).states).abort⟩

/-- The outer `for _, dst := range args.clusters` loop (source lines 351-456):
build the destination client (`log.Fatal` on error), then run the inner loop. -/
def joinOuter (w : World) (config : KubeConfig) (clusters dsts : List String)
    (σ : States) : StepRes :=
  match dsts with
  | [] => ⟨[], σ, none⟩
  | dst :: rest =>
    match w.clientErr dst with
    | some e => ⟨[Op.buildClient dst], σ, some (Abort.fatal e)⟩
    | none =>
      match (joinInner w config dst clusters σ).abort with
      | some a =>
        ⟨Op.buildClient dst :: (joinInner w config dst clusters σ).trace,
          (joinInner w config dst clusters σ).states, some a⟩
      | none =>
        ⟨Op.buildClient dst ::
            ((joinInner w config dst clusters σ).trace ++
              (joinOuter w config clusters rest (joinInner w config dst clusters σ).states).trace),
          (joinOuter w config clusters rest (joinInner w config dst clusters σ).states).states,
          (joinOuter w config clusters rest (joinInner w config dst clusters σ).states).abort⟩

/-- The live body of the join command's `RunE` (source lines 131-459): the
block at lines 137-346 is guarded by `if false` and never executes, so the
run consists solely of the pairwise exchange loops. `abort = none` means the
function returned `nil` and the process exits with status 0. -/
def joinRun (w : World) (σ : States) (clusters : List String) : StepRes :=
  joinOuter w w.kubeconfig clusters clusters σ

/-- Whether an operation is a mutation of cluster state (create or patch). -/
def Op.isWrite : Op → Bool
  | Op.createSecret _ _ _ _ => true
  | Op.patchSecret _ _ _ _ _ => true
  | _ => false

/-- Whether an operation is a call to a cluster's API server. -/
def Op.isApiCall : Op → Bool
  | Op.getServiceAccount _ _ _ => true
  | Op.getSecret _ _ _ => true
  | Op.createSecret _ _ _ _ => true
  | Op.patchSecret _ _ _ _ _ => true
  | _ => false

/-- The cluster an API call is addressed to. -/
def Op.apiCluster : Op → Option String
  | Op.getServiceAccount c _ _ => some c
  | Op.getSecret c _ _ => some c
  | Op.createSecret c _ _ _ => some c
  | Op.patchSecret c _ _ _ _ => some c
  | _ => none

/-- The namespace an API call is addressed to. -/
def Op.apiNamespace : Op → Option String
  | Op.getServiceAccount _ ns _ => some ns
  | Op.getSecret _ ns _ => some ns
  | Op.createSecret _ ns _ _ => some ns
  | Op.patchSecret _ ns _ _ _ => some ns
  | _ => none

/-- Marker of one directed exchange attempt (the `joining src to dst` print). -/
def Op.isJoinMark : Op → Bool
  | Op.printJoin _ _ => true
  | _ => false

/-- Number of directed exchange attempts recorded in a trace. -/
def countJoins (t : List Op) : Nat := t.countP Op.isJoinMark

/-! Concrete run environments used to instantiate the claims. -/

/-- A cluster with no objects. -/
def emptyState : ClusterState := { serviceAccounts := [], secrets := [] }

/-- A kubeconfig holding contexts `a`, `b` and their clusters. -/
def goodConfig : KubeConfig :=
  { contexts := [("a", { cluster := "cluster-a" }), ("b", { cluster := "cluster-b" })]
    clusters := [("cluster-a", { server := "https://a.example.com" }),
                 ("cluster-b", { server := "https://b.example.com" })] }

/-- A fault-free world over `goodConfig`: every client builds, and the API
backends behave normally. -/
def goodWorld : World :=
  { kubeconfig := goodConfig
    clientErr := fun _ => none
    createFault := fun _ _ => none
    patchFault := fun _ _ => none }

/-- Object state of a cluster whose pilot service account references exactly
one secret carrying the given CA and token bytes. -/
def pilotState (c ca tok : String) : ClusterState :=
  { serviceAccounts :=
      [(("istio-system", "istio-pilot-service-account"),
        { secrets := [{ name := "istio.pilot-token-" ++ c }] })]
    secrets :=
      [(("istio-system", "istio.pilot-token-" ++ c),
        { name := "istio.pilot-token-" ++ c
          nspace := "istio-system"
          labels := []
          data := [("ca.crt", ca), ("token", tok)] })] }

/-- Initial states in which clusters `a` and `b` both host healthy pilot
credentials and no cross-cluster secrets. -/
def goodInit (ca tok : String) : States :=
  fun c =>
    if c = "a" then pilotState "a" ca tok
    else if c = "b" then pilotState "b" ca tok
    else emptyState

/-- Whether an operation is a patch call. -/
def Op.isPatch : Op → Bool
  | Op.patchSecret _ _ _ _ _ => true
  | _ => false

/-- A world in which destination `a` rejects the create of `istio-mc-b` with an
unclassified API error, and destination `b` rejects the fallback patch of
`istio-mc-a` with an unclassified API error. -/
def c1World : World :=
  { kubeconfig := goodConfig
    clientErr := fun _ => none
    createFault := fun c n =>
      if c = "a" then (if n = "istio-mc-b" then some (ApiError.other "forbidden") else none)
      else none
    patchFault := fun c n =>
      if c = "b" then (if n = "istio-mc-a" then some (ApiError.other "conflict") else none)
      else none }

/-- Initial states for the `c1World` run: both clusters healthy, and `b`
already holds the cross-cluster secret `istio-mc-a`, so that the create on `b`
reports already-exists and the fallback patch is attempted. -/
def c1Init : States :=
  fun c =>
    if c = "a" then pilotState "a" "bytes1" "bytes2"
    else if c = "b" then
      { serviceAccounts := (pilotState "b" "bytes1" "bytes2").serviceAccounts
        secrets := (("istio-system", "istio-mc-a"), mkSrcSecret "a")
          :: (pilotState "b" "bytes1" "bytes2").secrets }
    else emptyState

/-- A world in which building a client for context `c` fails (the behavior of
the external client constructor when a context is absent from the
kubeconfig). -/
def missingClientWorld : World :=
  { kubeconfig := goodConfig
    clientErr := fun c => if c = "c" then some "context \"c\" does not exist" else none
    createFault := fun _ _ => none
    patchFault := fun _ _ => none }

/-- States in which the pilot service account of cluster `a` references two
secrets instead of one. -/
def badCountState : States :=
  fun c =>
    if c = "a" then
      { serviceAccounts := [(("istio-system", "istio-pilot-service-account"),
          { secrets := [{ name := "s1" }, { name := "s2" }] })]
        secrets := [] }
    else emptyState

/-- States in which the pilot secret of cluster `a` lacks the `ca.crt` data
field. -/
def missingFieldState : States :=
  fun c =>
    if c = "a" then
      { serviceAccounts := [(("istio-system", "istio-pilot-service-account"),
          { secrets := [{ name := "tok" }] })]
        secrets := [(("istio-system", "tok"),
          { name := "tok", nspace := "istio-system", labels := []
            data := [("token", "bytes2")] })] }
    else emptyState

/-- First run of the join command on `{a, b}` from healthy initial states. -/
def run1 : StepRes := joinRun goodWorld (goodInit "bytes1" "bytes2") ["a", "b"]

/-- Second run of the join command, starting from the states the first run
left behind, with unchanged source credentials. -/
def run2 : StepRes := joinRun goodWorld run1.states ["a", "b"]

/-! Helper lemmas. -/

/-- Looking up the key of a list member succeeds. -/
theorem alookup_isSome_of_mem (l : List (String × String)) (kv : String × String)
    (h : kv ∈ l) : (alookup kv.1 l).isSome = true := by
  induction l with
  | nil => simp at h
  | cons x rest ih =>
    rcases List.mem_cons.mp h with rfl | h'
    · simp [alookup]
    · by_cases hx : x.1 = kv.1 <;> simp [alookup, hx, ih h']

/-- Merging a key-value map into itself changes nothing. -/
theorem mergeKV_self (base : List (String × String)) : mergeKV base base = base := by
  unfold mergeKV
  have hnil : base.filter (fun kv => (alookup kv.1 base).isNone) = [] := by
    rw [List.filter_eq_nil_iff]
    intro kv hkv
    have := alookup_isSome_of_mem base kv hkv
    simp only [Option.isNone_iff_eq_none]
    intro hnone
    rw [hnone] at this
    simp at this
  rw [hnil]
  simp

/-- A strategic merge-patch whose payload equals the existing object leaves
the object unchanged. -/
theorem applyPatch_self (s : SecretObj) : applyPatch s s = s := by
  simp [applyPatch, mergeKV_self]

/-- The trace of one directed exchange contains exactly one attempt marker,
whether the pair completes or aborts. -/
theorem exchangePair_countJoins (w : World) (cfg : KubeConfig) (src dst : String)
    (σ : States) : countJoins (exchangePair w cfg src dst σ).trace = 1 := by
  unfold exchangePair
  iterate 12 all_goals try split
  all_goals simp [countJoins, Op.isJoinMark, List.countP_cons]

/-- An abort-free inner loop records one attempt per source differing from
the destination. -/
theorem joinInner_countJoins (w : World) (cfg : KubeConfig) (dst : String)
    (srcs : List String) (σ : States)
    (h : (joinInner w cfg dst srcs σ).abort = none) :
    countJoins (joinInner w cfg dst srcs σ).trace
      = srcs.countP (fun s => !decide (s = dst)) := by
  induction srcs generalizing σ with
  | nil => simp [joinInner, countJoins]
  | cons src rest ih =>
    unfold joinInner at h ⊢
    by_cases hd : src = dst
    · simp only [if_pos hd] at h ⊢
      rw [ih σ h, List.countP_cons]
      simp [hd]
    · simp only [if_neg hd] at h ⊢
      cases habort : (exchangePair w cfg src dst σ).abort with
      | some a => simp [habort] at h
      | none =>
        simp only [habort] at h ⊢
        have h1 := exchangePair_countJoins w cfg src dst σ
        have h2 := ih _ h
        simp only [countJoins] at h1 h2 ⊢
        simp only [List.countP_append, List.countP_cons, h1, h2, hd]
        simp [hd]
        omega

/-- An abort-free outer loop records, per destination, one attempt for every
configured source differing from it. -/
theorem joinOuter_countJoins (w : World) (cfg : KubeConfig) (clusters dsts : List String)
    (σ : States) (h : (joinOuter w cfg clusters dsts σ).abort = none) :
    countJoins (joinOuter w cfg clusters dsts σ).trace
      = (dsts.map (fun d => clusters.countP (fun s => !decide (s = d)))).sum := by
  induction dsts generalizing σ with
  | nil => simp [joinOuter, countJoins]
  | cons dst rest ih =>
    unfold joinOuter at h ⊢
    cases hcli : w.clientErr dst with
    | some e => simp [hcli] at h
    | none =>
      simp only [hcli] at h ⊢
      cases hab : (joinInner w cfg dst clusters σ).abort with
      | some a => simp [hab] at h
      | none =>
        simp only [hab] at h ⊢
        have h1 := joinInner_countJoins w cfg dst clusters σ hab
        have h2 := ih _ h
        simp only [countJoins] at h1 h2 ⊢
        simp only [List.countP_cons, List.countP_append, List.map_cons, List.sum_cons, h1, h2]
        simp [Op.isJoinMark]

/-- The matching and non-matching counts of an equality test partition the
length of a list. -/
theorem countP_eq_split (cs : List String) (d : String) :
    cs.countP (fun s => !decide (s = d)) + cs.countP (fun s => decide (s = d))
      = cs.length := by
  induction cs with
  | nil => rfl
  | cons c rest ih =>
    by_cases h : c = d <;> simp [List.countP_cons, h] <;> omega

/-- In a duplicate-free list, a member is counted exactly once. -/
theorem countP_eq_one_of_nodup_mem (cs : List String) (d : String)
    (hnd : cs.Nodup) (hm : d ∈ cs) :
    cs.countP (fun s => decide (s = d)) = 1 := by
  induction cs with
  | nil => simp at hm
  | cons c rest ih =>
    rw [List.countP_cons]
    rcases List.mem_cons.mp hm with rfl | hm'
    · have hnot : d ∉ rest := (List.nodup_cons.mp hnd).1
      have hz : rest.countP (fun s => decide (s = d)) = 0 := by
        rw [List.countP_eq_zero]
        intro a ha
        simp only [decide_eq_true_eq]
        rintro rfl
        exact hnot ha
      simp [hz]
    · have hcd : ¬c = d := by
        rintro rfl
        exact (List.nodup_cons.mp hnd).1 hm'
      rw [ih (List.nodup_cons.mp hnd).2 hm']
      simp [hcd]

/-- Summing the non-matching counts over a list of keys that each occur once
in `cs` gives length-many copies of `cs.length - 1`. -/
theorem attempt_sum_aux (cs l : List String)
    (h : ∀ d ∈ l, cs.countP (fun s => decide (s = d)) = 1) :
    (l.map (fun d => cs.countP (fun s => !decide (s = d)))).sum
      = l.length * (cs.length - 1) := by
  induction l with
  | nil => simp
  | cons d rest ih =>
    simp only [List.map_cons, List.sum_cons, List.length_cons]
    rw [ih (fun x hx => h x (List.mem_cons_of_mem _ hx))]
    have h1 := h d (List.mem_cons_self _ _)
    have h2 := countP_eq_split cs d
    rw [Nat.succ_mul]
    generalize rest.length * (cs.length - 1) = k
    omega

/-! Claim theorems. -/

/-- C1 (counterexample): the claim that any create error other than
already-exists, and any merge-patch error, terminates the process fatally is
false. In `c1World` the create of `istio-mc-b` on destination `a` fails with
the unclassified error `forbidden` and the fallback patch of `istio-mc-a` on
destination `b` fails with the unclassified error `conflict`, yet the run
records both failures, continues past them, and finishes with `abort = none`,
i.e. exit status 0. -/
theorem c1_unclassified_create_error_ignored_cex :
    (joinRun c1World c1Init ["a", "b"]).abort = none ∧
    Op.createSecret "a" "istio-system" (mkSrcSecret "b") (some (ApiError.other "forbidden"))
      ∈ (joinRun c1World c1Init ["a", "b"]).trace ∧
    Op.patchSecret "b" "istio-system" "istio-mc-a" (mkSrcSecret "a")
        (some (ApiError.other "conflict"))
      ∈ (joinRun c1World c1Init ["a", "b"]).trace := by
  decide

/-- C1 (amended): once the create call of a directed pair has been issued —
whatever its result, and whatever the result of the fallback patch — that
pair never terminates the process: a non-already-exists create error is
silently ignored and a patch error is only printed, so the loop continues. -/
theorem c1_create_patch_failure_never_aborts (w : World) (cfg : KubeConfig)
    (src dst : String) (σ : States) (c ns : String) (s : SecretObj) (r : Option ApiError)
    (h : Op.createSecret c ns s r ∈ (exchangePair w cfg src dst σ).trace) :
    (exchangePair w cfg src dst σ).abort = none := by
  unfold exchangePair at h ⊢
  iterate 12 all_goals try split at h
  all_goals simp_all

/-- C1 (witness): the amended theorem applied to the failing create of
`c1World`. -/
theorem c1_create_patch_failure_never_aborts_witness :
    (exchangePair c1World goodConfig "b" "a" c1Init).abort = none :=
  c1_create_patch_failure_never_aborts c1World goodConfig "b" "a" c1Init
    "a" "istio-system" (mkSrcSecret "b") (some (ApiError.other "forbidden")) (by decide)

/-- C2: every secret submitted in a create call of the exchange — and every
payload of the fallback patch — equals `mkSrcSecret src`, which carries only
the name `istio-mc-<src>`, the namespace `istio-system` and the single
mesh-join label, with an empty data map; and whenever a create is issued the
remote-access descriptor has been constructed (it appears in the trace) yet is
not embedded in the submitted secret. -/
theorem c2_secret_carries_only_metadata (w : World) (cfg : KubeConfig)
    (src dst : String) (σ : States) :
    (∀ c ns s r, Op.createSecret c ns s r ∈ (exchangePair w cfg src dst σ).trace →
        s = mkSrcSecret src ∧ s.data = [] ∧
        ∃ d, Op.buildDescriptor d ∈ (exchangePair w cfg src dst σ).trace) ∧
    (∀ c ns n p r, Op.patchSecret c ns n p r ∈ (exchangePair w cfg src dst σ).trace →
        p = mkSrcSecret src ∧ p.data = []) ∧
    (mkSrcSecret src).data = [] ∧
    (mkSrcSecret src).labels = [("istio/multiCluster", "true")] ∧
    (mkSrcSecret src).name = "istio-mc-" ++ src ∧
    (mkSrcSecret src).nspace = "istio-system" := by
  refine ⟨?_, ?_, rfl, rfl, rfl, rfl⟩
  · intro c ns s r h
    unfold exchangePair at h ⊢
    iterate 12 all_goals try split at h
    all_goals simp_all [mkSrcSecret]
  · intro c ns n p r h
    unfold exchangePair at h
    iterate 12 all_goals try split at h
    all_goals simp_all [mkSrcSecret]

/-- C2 (witness): the payload fact applied to the concrete create issued for
the pair `a` to `b` of the healthy run. -/
theorem c2_secret_carries_only_metadata_witness :
    (mkSrcSecret "a").data = [] ∧
    ∃ d, Op.buildDescriptor d
      ∈ (exchangePair goodWorld goodConfig "a" "b" (goodInit "bytes1" "bytes2")).trace :=
  ⟨((c2_secret_carries_only_metadata goodWorld goodConfig "a" "b"
        (goodInit "bytes1" "bytes2")).1 "b" "istio-system" (mkSrcSecret "a") none
      (by decide)).2.1,
    ((c2_secret_carries_only_metadata goodWorld goodConfig "a" "b"
        (goodInit "bytes1" "bytes2")).1 "b" "istio-system" (mkSrcSecret "a") none
      (by decide)).2.2⟩

/-- C3 (counterexample): the claim that every invocation with a cluster count
other than two prints a diagnostic and exits non-zero is false: with the
single cluster list `[a]` the run performs no exchange, prints nothing, and
finishes with `abort = none`, i.e. exit status 0 — the arity check sits in a
statically disabled block. -/
theorem c3_no_arity_check_cex :
    (joinRun goodWorld (goodInit "bytes1" "bytes2") ["a"]).abort = none ∧
    countJoins (joinRun goodWorld (goodInit "bytes1" "bytes2") ["a"]).trace = 0 ∧
    (["a"] : List String).length ≠ 2 := by
  decide

/-- C3 (amended): no cluster-count check executes in the live path: a join
invocation whose cluster list is a single identifier with a working client
completes with exit status 0, performing no exchange, even though its length
differs from two. -/
theorem c3_single_cluster_accepted (w : World) (σ : States) (c : String)
    (h : w.clientErr c = none) :
    (joinRun w σ [c]).abort = none ∧
    (joinRun w σ [c]).trace = [Op.buildClient c] ∧
    ([c] : List String).length ≠ 2 := by
  refine ⟨?_, ?_, by simp⟩ <;> simp [joinRun, joinOuter, joinInner, h]

/-- C3 (witness): the amended theorem at the concrete healthy world. -/
theorem c3_single_cluster_accepted_witness :
    (joinRun goodWorld (goodInit "bytes1" "bytes2") ["a"]).abort = none :=
  (c3_single_cluster_accepted goodWorld (goodInit "bytes1" "bytes2") "a" (by decide)).1

/-- C4 (counterexample): the claim that a cluster identifier absent from the
configured contexts makes the process exit non-zero before any API call, with
a diagnostic naming it, is false: when the client for the unknown context `c`
still builds, the run with list `[c]` issues no API call, prints no
diagnostic, and finishes with `abort = none`, i.e. exit status 0 — the
membership check sits in a statically disabled block. -/
theorem c4_missing_context_not_checked_cex :
    alookup "c" goodWorld.kubeconfig.contexts = none ∧
    (joinRun goodWorld (goodInit "bytes1" "bytes2") ["c"]).abort = none ∧
    ∀ op ∈ (joinRun goodWorld (goodInit "bytes1" "bytes2") ["c"]).trace,
      op.isApiCall = false := by
  decide

/-- C4 (amended): the live path performs no membership check of its own; a
missing identifier is caught only through the external client constructor:
when building the client for the first listed cluster fails, the process
terminates fatally (non-zero) before issuing any cluster API call, and the
only diagnostic is the constructor error passed to `log.Fatal`. -/
theorem c4_first_client_failure_fatal_before_api (w : World) (σ : States)
    (c e : String) (rest : List String) (h : w.clientErr c = some e) :
    (joinRun w σ (c :: rest)).abort = some (Abort.fatal e) ∧
    (joinRun w σ (c :: rest)).trace = [Op.buildClient c] := by
  constructor <;> simp [joinRun, joinOuter, h]

/-- C4 (witness): the amended theorem at a world whose client constructor
fails for the unknown context `c`. -/
theorem c4_first_client_failure_fatal_before_api_witness :
    (joinRun missingClientWorld (goodInit "bytes1" "bytes2") ["c", "a"]).abort
      = some (Abort.fatal "context \"c\" does not exist") :=
  (c4_first_client_failure_fatal_before_api missingClientWorld
    (goodInit "bytes1" "bytes2") "c" "context \"c\" does not exist" ["a"] (by decide)).1

/-- C5 (counterexample): the claim that a cluster list of size N always yields
exactly N times (N minus 1) directed exchange attempts is false for lists with
repeated identifiers: the list `[a, a]` has size 2, so the claim demands 2
attempts, but the completed run performs 0 because the skip compares
identifiers, not positions. -/
theorem c5_duplicate_identifiers_cex :
    countJoins (joinRun goodWorld (goodInit "bytes1" "bytes2") ["a", "a"]).trace = 0 ∧
    (joinRun goodWorld (goodInit "bytes1" "bytes2") ["a", "a"]).abort = none ∧
    (["a", "a"] : List String).length * ((["a", "a"] : List String).length - 1) = 2 := by
  decide

/-- C5 (amended): a completed (abort-free) run on a duplicate-free cluster
list of size N performs exactly N times (N minus 1) directed exchange
attempts — one per ordered pair of distinct identifiers — hence exactly 2
when N equals 2. -/
theorem c5_attempt_count_nodup (w : World) (σ : States) (cs : List String)
    (h : (joinRun w σ cs).abort = none) (hnd : cs.Nodup) :
    countJoins (joinRun w σ cs).trace = cs.length * (cs.length - 1) := by
  unfold joinRun at h ⊢
  rw [joinOuter_countJoins w w.kubeconfig cs cs σ h]
  exact attempt_sum_aux cs cs (fun d hd => countP_eq_one_of_nodup_mem cs d hnd hd)

/-- C5 (witness): the amended theorem at the healthy two-cluster run, giving
exactly 2 attempts. -/
theorem c5_attempt_count_nodup_witness :
    countJoins (joinRun goodWorld (goodInit "bytes1" "bytes2") ["a", "b"]).trace
      = (["a", "b"] : List String).length * ((["a", "b"] : List String).length - 1) :=
  c5_attempt_count_nodup goodWorld (goodInit "bytes1" "bytes2") ["a", "b"]
    (by decide) (by decide)

/-- C6: running the exchange twice on `{a, b}` with unchanged source
credentials is idempotent: a strategic merge-patch of a payload into an
identical existing object changes nothing in general; both runs complete;
the first run issues no patch and creates `istio-mc-a` on `b` successfully;
the second run's create reports already-exists and is followed by a patch of
the same payload; and the cross-cluster secrets on both destinations are
identical after the first and after the second run. -/
theorem c6_second_run_patch_branch_same_content :
    (∀ s : SecretObj, applyPatch s s = s) ∧
    run1.abort = none ∧ run2.abort = none ∧
    run1.trace.countP Op.isPatch = 0 ∧
    Op.createSecret "b" "istio-system" (mkSrcSecret "a") none ∈ run1.trace ∧
    Op.createSecret "b" "istio-system" (mkSrcSecret "a") (some ApiError.alreadyExists)
      ∈ run2.trace ∧
    Op.patchSecret "b" "istio-system" "istio-mc-a" (mkSrcSecret "a") none ∈ run2.trace ∧
    alookup ("istio-system", "istio-mc-a") ((run2.states) "b").secrets
      = alookup ("istio-system", "istio-mc-a") ((run1.states) "b").secrets ∧
    alookup ("istio-system", "istio-mc-b") ((run2.states) "a").secrets
      = alookup ("istio-system", "istio-mc-b") ((run1.states) "a").secrets ∧
    alookup ("istio-system", "istio-mc-a") ((run1.states) "b").secrets
      = some (mkSrcSecret "a") := by
  refine ⟨applyPatch_self, ?_⟩
  decide

/-- C7: whenever the pilot service account fetched from the source references
a number of secrets other than one, the exchange for that pair aborts (the
process stops with a non-zero exit) and its trace contains no write to any
cluster. -/
theorem c7_secret_count_guard_aborts_before_write (w : World) (cfg : KubeConfig)
    (src dst : String) (σ : States) (sa : ServiceAccount)
    (hsa : alookup ("istio-system", "istio-pilot-service-account")
      (σ src).serviceAccounts = some sa)
    (hlen : sa.secrets.length ≠ 1) :
    (exchangePair w cfg src dst σ).abort.isSome = true ∧
    ∀ op ∈ (exchangePair w cfg src dst σ).trace, op.isWrite = false := by
  unfold exchangePair
  iterate 12 all_goals try split
  all_goals simp_all [Op.isWrite]

/-- C7 (witness): the guard theorem at a state whose service account
references two secrets. -/
theorem c7_secret_count_guard_aborts_before_write_witness :
    (exchangePair goodWorld goodConfig "a" "b" badCountState).abort.isSome = true :=
  (c7_secret_count_guard_aborts_before_write goodWorld goodConfig "a" "b" badCountState
    { secrets := [{ name := "s1" }, { name := "s2" }] } (by decide) (by decide)).1

/-- C8: when the fetched source secret lacks the `ca.crt` or the `token` data
field, the exchange for that pair aborts fatally with a message naming the
missing field, before the destination secret (or the descriptor) is
constructed and before any write. -/
theorem c8_missing_field_fatal_named (w : World) (cfg : KubeConfig)
    (src dst : String) (σ : States) (ctx : KubeContext) (cl : KubeCluster)
    (ref : ObjectRef) (sec : SecretObj)
    (hctx : alookup dst cfg.contexts = some ctx)
    (hcl : alookup ctx.cluster cfg.clusters = some cl)
    (hcli : w.clientErr src = none)
    (hsa : alookup ("istio-system", "istio-pilot-service-account")
      (σ src).serviceAccounts = some { secrets := [ref] })
    (hsec : alookup ("istio-system", ref.name) (σ src).secrets = some sec)
    (hmiss : alookup "ca.crt" sec.data = none ∨ alookup "token" sec.data = none) :
    ((exchangePair w cfg src dst σ).abort
        = some (Abort.fatal (ref.name ++ " is missing ca.crt")) ∨
      (exchangePair w cfg src dst σ).abort
        = some (Abort.fatal (ref.name ++ " is missing token"))) ∧
    ∀ op ∈ (exchangePair w cfg src dst σ).trace,
      op.isWrite = false ∧ ∀ d, op ≠ Op.buildDescriptor d := by
  unfold exchangePair
  rcases hmiss with hca | htok
  · simp [hctx, hcl, hcli, hsa, hsec, hca, Op.isWrite]
  · cases hca : alookup "ca.crt" sec.data with
    | none => simp [hctx, hcl, hcli, hsa, hsec, hca, Op.isWrite]
    | some caData => simp [hctx, hcl, hcli, hsa, hsec, hca, htok, Op.isWrite]

/-- C8 (witness): the missing-field theorem at a state whose pilot secret
lacks `ca.crt`, yielding the fatal message naming that field. -/
theorem c8_missing_field_fatal_named_witness :
    (exchangePair goodWorld goodConfig "a" "b" missingFieldState).abort
        = some (Abort.fatal "tok is missing ca.crt") ∨
    (exchangePair goodWorld goodConfig "a" "b" missingFieldState).abort
        = some (Abort.fatal "tok is missing token") :=
  (c8_missing_field_fatal_named goodWorld goodConfig "a" "b" missingFieldState
      { cluster := "cluster-b" } { server := "https://b.example.com" }
      { name := "tok" }
      { name := "tok", nspace := "istio-system", labels := [], data := [("token", "bytes2")] }
      (by decide) (by decide) (by decide) (by decide) (by decide)
      (Or.inl (by decide))).1

/-- C9: on the healthy two-cluster scenario — clusters `{a, b}`, service
account `istio-pilot-service-account` in `istio-system` on `a` referencing
exactly one secret with `ca.crt` and `token` fields — the run completes and
leaves on cluster `b`, in namespace `istio-system`, a secret named
`istio-mc-a` carrying the label `istio/multiCluster = true`. -/
theorem c9_two_cluster_scenario_creates_labeled_secret :
    (joinRun goodWorld (goodInit "bytes1" "bytes2") ["a", "b"]).abort = none ∧
    alookup ("istio-system", "istio-mc-a")
        (((joinRun goodWorld (goodInit "bytes1" "bytes2") ["a", "b"]).states) "b").secrets
      = some (mkSrcSecret "a") ∧
    (mkSrcSecret "a").name = "istio-mc-a" ∧
    (mkSrcSecret "a").nspace = "istio-system" ∧
    alookup "istio/multiCluster" (mkSrcSecret "a").labels = some "true" := by
  decide

/-- C10: in one directed exchange with distinct source and destination, every
write operation (create or patch) in the trace is addressed to the
destination cluster in the namespace `istio-system`, and every API operation
addressed to the source cluster is a read. -/
theorem c10_source_read_only_writes_to_destination (w : World) (cfg : KubeConfig)
    (src dst : String) (σ : States) (hne : src ≠ dst) :
    ∀ op ∈ (exchangePair w cfg src dst σ).trace,
      (op.isWrite = true → op.apiCluster = some dst ∧ op.apiNamespace = some "istio-system") ∧
      (op.apiCluster = some src → op.isWrite = false) := by
  have hne' : ¬dst = src := fun hh => hne hh.symm
  unfold exchangePair
  iterate 12 all_goals try split
  all_goals intro op hop
  all_goals simp_all [Op.isWrite, Op.apiCluster, Op.apiNamespace]
  all_goals rcases hop with rfl | rfl | rfl | rfl | rfl | rfl | rfl <;>
    simp_all [Op.isWrite, Op.apiCluster, Op.apiNamespace]

/-- C10 (witness): the frame theorem applied to the concrete get of the pilot
secret on the source of the healthy run. -/
theorem c10_source_read_only_writes_to_destination_witness :
    (Op.getSecret "a" "istio-system" "istio.pilot-token-a").isWrite = false :=
  (c10_source_read_only_writes_to_destination goodWorld goodConfig "a" "b"
    (goodInit "bytes1" "bytes2") (by decide)
    (Op.getSecret "a" "istio-system" "istio.pilot-token-a") (by decide)).2 (by decide)

end Multi
